import Mathlib

/- Shallow embedding of the authority arbitration core of the subsea autonomy
stack (authority_rules.py) together with the mode-token parsing of its
transport layer (mode_arbitrator.py).  Python floats are modelled as
rationals; Python dict lookups with a .get default are modelled as if-chains;
the heterogeneous reasons dictionary is modelled as an association list over
a tagged value type.  Python numeric string formatting (the .2f and .0%
format specs) is rendered by the helper render, which preserves determinism
but not the exact digit layout; no statement below depends on the digits. -/

/- ===== Data model (authority_rules.py lines 5 to 47) ===== -/

/-- Risk categorization for mission phases (class PhaseRiskLevel). -/
inductive PhaseRiskLevel where
  | SAFE
  | LOW
  | MEDIUM
  | HIGH
  | CRITICAL
deriving DecidableEq, Repr

/-- Integer value of each risk level, as in the Python Enum. -/
def PhaseRiskLevel.val : PhaseRiskLevel → Nat
  | .SAFE => 0
  | .LOW => 1
  | .MEDIUM => 2
  | .HIGH => 3
  | .CRITICAL => 4

/-- The .name attribute of the Python Enum member. -/
def PhaseRiskLevel.name : PhaseRiskLevel → String
  | .SAFE => "SAFE"
  | .LOW => "LOW"
  | .MEDIUM => "MEDIUM"
  | .HIGH => "HIGH"
  | .CRITICAL => "CRITICAL"

/-- Available control modes (class ControlMode). -/
inductive ControlMode where
  | AUTONOMOUS
  | HUMAN
  | SHARED
deriving DecidableEq, Repr

/-- The .name attribute of the Python Enum member. -/
def ControlMode.name : ControlMode → String
  | .AUTONOMOUS => "AUTONOMOUS"
  | .HUMAN => "HUMAN"
  | .SHARED => "SHARED"

/-- Types of actions the system can take (class ActionType). -/
inductive ActionType where
  | AUTO_SWITCH
  | ASK
  | SUGGEST
  | NOTIFY
  | BLOCK
  | NONE
deriving DecidableEq, Repr

/-- System recommendation for control mode (dataclass ModeRecommendation). -/
structure ModeRecommendation where
  recommended_mode : ControlMode
  confidence : ℚ
  human_reliability : ℚ
  autonomous_reliability : ℚ
  docking_reliability : Option ℚ
deriving DecidableEq, Repr

/-- A value stored in the heterogeneous Python reasons dictionary. -/
inductive RVal where
  | rBool : Bool → RVal
  | rStr : String → RVal
  | rRat : ℚ → RVal
  | rStrList : List String → RVal
deriving DecidableEq, Repr

/-- Decision output from authority rule engine (dataclass AuthorityDecision). -/
structure AuthorityDecision where
  action_type : ActionType
  target_mode : ControlMode
  message : String
  explanation : String
  urgency : String
  allow_decline : Bool
  timeout_seconds : Option Nat
  reasons : List (String × RVal)
deriving DecidableEq, Repr

/- ===== PhaseRiskClassifier (authority_rules.py lines 50 to 98) ===== -/

/-- PHASE_RISK_MAP.get(phase, PhaseRiskLevel.MEDIUM): base risk lookup with
the fail-safe MEDIUM default for unrecognized phases. -/
def PHASE_RISK_MAP_get (phase : String) : PhaseRiskLevel :=
  if phase = "Docking" then .CRITICAL
  else if phase = "DockingApproach" then .CRITICAL
  else if phase = "Undocking" then .HIGH
  else if phase = "Inspection" then .MEDIUM
  else if phase = "Transit" then .LOW
  else if phase = "Charging" then .SAFE
  else .MEDIUM

/-- CRITICALITY_MODIFIER.get(task_criticality, 0): criticality modifier lookup
with default 0 for unrecognized criticalities. -/
def CRITICALITY_MODIFIER_get (task_criticality : String) : Nat :=
  if task_criticality = "Routine" then 0
  else if task_criticality = "Important" then 1
  else if task_criticality = "Critical" then 2
  else 0

/-- The integer computed at authority_rules.py line 86:
min(base_risk.value + modifier, PhaseRiskLevel.CRITICAL.value). -/
def risk_value (phase task_criticality : String) : Nat :=
  min ((PHASE_RISK_MAP_get phase).val + CRITICALITY_MODIFIER_get task_criticality)
    PhaseRiskLevel.CRITICAL.val

/-- The Python enum constructor PhaseRiskLevel(v): defined (some) exactly for
the member values 0 to 4 and a ValueError (none) otherwise. -/
def PhaseRiskLevel.ofVal? : Nat → Option PhaseRiskLevel
  | 0 => some .SAFE
  | 1 => some .LOW
  | 2 => some .MEDIUM
  | 3 => some .HIGH
  | 4 => some .CRITICAL
  | _ => none

/-- Total version of the enum constructor.  Values above 4 cannot reach it
from get_risk_level because line 86 clamps with min at CRITICAL.value = 4;
that exception-freedom is proved against PhaseRiskLevel.ofVal? below. -/
def PhaseRiskLevel.ofVal : Nat → PhaseRiskLevel
  | 0 => .SAFE
  | 1 => .LOW
  | 2 => .MEDIUM
  | 3 => .HIGH
  | _ => .CRITICAL

/-- PhaseRiskClassifier.get_risk_level (lines 70 to 88). -/
def get_risk_level (phase task_criticality : String) : PhaseRiskLevel :=
  PhaseRiskLevel.ofVal (risk_value phase task_criticality)

/-- get_risk_level with the Python enum constructor modelled as fallible. -/
def get_risk_level_checked (phase task_criticality : String) : Option PhaseRiskLevel :=
  PhaseRiskLevel.ofVal? (risk_value phase task_criticality)

/-- PhaseRiskClassifier.is_autonomous_allowed (lines 90 to 98). -/
def is_autonomous_allowed (phase task_criticality : String) : Bool :=
  get_risk_level phase task_criticality != PhaseRiskLevel.CRITICAL

/- ===== AuthorityRuleEngine state (authority_rules.py lines 113 to 121) ===== -/

/-- The attributes set in AuthorityRuleEngine.__init__.  The history list and
last-change time are mutable bookkeeping fields that evaluate_mode_change
never reads nor writes; the remaining four are the fixed configuration. -/
structure AuthorityRuleEngine where
  minimum_mode_duration : ℚ
  CRITICAL_LOW_THRESHOLD : ℚ
  LOW_THRESHOLD : ℚ
  HIGH_THRESHOLD : ℚ
  mode_change_history : List String
  last_mode_change_time : Option ℚ
deriving DecidableEq, Repr

/-- The engine as constructed by __init__: duration 120 s and thresholds
0.5 / 0.6 / 0.8 (written in kernel-reducible mkRat form; the lemma
init_thresholds below checks them against the decimal literals of the
source), empty history, no last change time. -/
def AuthorityRuleEngine.init : AuthorityRuleEngine :=
  ⟨120, mkRat 1 2, mkRat 3 5, mkRat 4 5, [], none⟩

/- ===== Helpers ===== -/

/-- Deterministic stand-in for Python numeric string formatting (.2f, .0%).
No claim depends on the rendered digits. -/
def render (q : ℚ) : String :=
  toString q

/-- Python int() applied to a float: truncation toward zero. -/
def pyInt (q : ℚ) : Int :=
  if 0 ≤ q then ⌊q⌋ else ⌈q⌉

/-- Python substring membership test (the in operator on strings). -/
def strContains (s pat : String) : Bool :=
  (s.splitOn pat).length != 1

/-- Python str.lower(), modelled as a per-character lowering map. -/
def pyLower (s : String) : String :=
  ⟨s.data.map Char.toLower⟩

/- ===== Degradation diagnoser (authority_rules.py lines 824 to 847) ===== -/

/-- AuthorityRuleEngine._diagnose_autonomous_degradation.  The 0.6 and 0.7
bounds are literals in the source, not the engine thresholds. -/
def diagnose_autonomous_degradation (bn_rec : ModeRecommendation) : List String :=
  let factors : List String :=
    (if bn_rec.autonomous_reliability < 0.6 then
      ["Navigation accuracy reduced (possible USBL degradation)",
       "Environmental conditions affecting stability"]
     else []) ++
    (match bn_rec.docking_reliability with
     | some dr =>
        if dr < 0.7 then
          ["Docking conditions suboptimal (reliability: " ++ render dr ++ ")"]
        else []
     | none => [])
  if factors = [] then ["Minor performance degradation detected"] else factors

/- ===== Explanation composer (authority_rules.py lines 748 to 822) ===== -/

/-- AuthorityRuleEngine._reliability_label. -/
def reliability_label (e : AuthorityRuleEngine) (reliability : ℚ) : String :=
  if reliability ≥ e.HIGH_THRESHOLD then "Excellent"
  else if reliability ≥ 0.7 then "Good"
  else if reliability ≥ e.LOW_THRESHOLD then "Fair"
  else if reliability ≥ e.CRITICAL_LOW_THRESHOLD then "Low"
  else "Critical"

/-- AuthorityRuleEngine._generate_explanation: summary, reliability block,
scenario-dependent factor bullets, mission context and confidence line. -/
def generate_explanation (e : AuthorityRuleEngine) (scenario mission_phase : String)
    (bn_rec : ModeRecommendation) (summary : String) : String :=
  let head := summary ++ "." ++
    "\n\nPerformance Assessment:" ++
    "\n  - Your reliability: " ++ render bn_rec.human_reliability ++
      " (" ++ reliability_label e bn_rec.human_reliability ++ ")" ++
    "\n  - System reliability: " ++ render bn_rec.autonomous_reliability ++
      " (" ++ reliability_label e bn_rec.autonomous_reliability ++ ")"
  let dock :=
    match bn_rec.docking_reliability with
    | some dr => "\n  - Docking reliability: " ++ render dr
    | none => ""
  let factors_part :=
    if strContains scenario "auto_to_human" then
      let factors := diagnose_autonomous_degradation bn_rec
      if factors ≠ [] then
        "\n\nAutonomous System Status:" ++
          String.join (factors.map (fun f => "\n  - " ++ f))
      else ""
    else if strContains scenario "human" ∧ bn_rec.human_reliability < e.LOW_THRESHOLD then
      "\n\nYour Current State:" ++
        (if bn_rec.human_reliability < e.CRITICAL_LOW_THRESHOLD then
          "\n  - Fatigue level is critically high" ++
          "\n  - Attention capacity is significantly reduced" ++
          "\n  - Cognitive workload may be elevated"
         else
          "\n  - Fatigue is accumulating" ++
          "\n  - Consider using automation to reduce workload")
    else ""
  let context := "\n\nMission Context: " ++ mission_phase ++ " phase"
  let confidence_desc :=
    if bn_rec.confidence > 0.8 then "very confident"
    else if bn_rec.confidence > 0.6 then "confident"
    else "moderately confident"
  let tail := "\n\nSystem is " ++ confidence_desc ++ " in this recommendation (" ++
    render bn_rec.confidence ++ ")."
  head ++ dock ++ factors_part ++ context ++ tail

/- ===== Operator override handler (authority_rules.py lines 193 to 251) ===== -/

/-- The urgency_map dictionary at lines 225 to 231; total over the enum. -/
def urgency_map (risk : PhaseRiskLevel) : String :=
  match risk with
  | .SAFE => "low"
  | .LOW => "low"
  | .MEDIUM => "medium"
  | .HIGH => "high"
  | .CRITICAL => "critical"

/-- AuthorityRuleEngine._handle_operator_override.  The two nested Python ifs
at lines 203 to 204 are flattened into one conjunction.  Note the source
calls is_autonomous_allowed(mission_phase) with no criticality argument, so
the gate is evaluated at the default task_criticality "Routine" even though
risk_level was computed from the actual criticality. -/
def handle_operator_override (requested_mode current_mode : ControlMode)
    (risk_level : PhaseRiskLevel) (mission_phase : String) : AuthorityDecision :=
  if requested_mode = ControlMode.AUTONOMOUS ∧
      is_autonomous_allowed mission_phase "Routine" = false then
    ⟨ActionType.BLOCK, current_mode,
     "Autonomous mode not allowed during " ++ mission_phase,
     "Safety rules prohibit autonomous operation during " ++ mission_phase ++
       " phase. This is a critical phase requiring human judgment. " ++
       "Shared control is available if you need assistance.",
     "high", false, none,
     [("blocked", RVal.rBool true),
      ("reason", RVal.rStr "phase_safety_rule"),
      ("phase", RVal.rStr mission_phase),
      ("risk_level", RVal.rStr risk_level.name),
      ("alternative", RVal.rStr "Shared control available")]⟩
  else
    let warning :=
      if risk_level.val ≥ PhaseRiskLevel.HIGH.val then
        " Warning: " ++ mission_phase ++ " is a high-risk phase."
      else ""
    ⟨ActionType.AUTO_SWITCH, requested_mode,
     "Operator override accepted: " ++ requested_mode.name ++ warning,
     "You have manually selected " ++ requested_mode.name ++
       " mode. The system will respect your decision." ++ warning,
     urgency_map risk_level, false, none,
     [("operator_override", RVal.rBool true),
      ("risk_level", RVal.rStr risk_level.name),
      ("phase", RVal.rStr mission_phase)]⟩

/- ===== Hard safety rules (authority_rules.py lines 253 to 314) ===== -/

/-- AuthorityRuleEngine._apply_safety_rules: rule 1 (critically low human
reliability during a critical phase) then rule 2 (autonomous wants to hand
over to human during degradation); none when neither fires. -/
def apply_safety_rules (e : AuthorityRuleEngine) (current_mode recommended_mode : ControlMode)
    (risk_level : PhaseRiskLevel) (mission_phase : String)
    (bn_rec : ModeRecommendation) : Option AuthorityDecision :=
  if risk_level = PhaseRiskLevel.CRITICAL ∧ current_mode = ControlMode.HUMAN ∧
      bn_rec.human_reliability < e.CRITICAL_LOW_THRESHOLD then
    some ⟨ActionType.NOTIFY, current_mode,
      "SAFETY ALERT: Critical fatigue during " ++ mission_phase,
      "Your reliability is critically low (" ++ render bn_rec.human_reliability ++
        ") during " ++ mission_phase ++ " phase. " ++
        "Consider aborting operation and returning to safe zone. " ++
        "Autonomous mode is not allowed during this critical phase. " ++
        "Shared control can provide assistance.",
      "critical", false, none,
      [("safety_alert", RVal.rBool true),
       ("human_reliability", RVal.rRat bn_rec.human_reliability),
       ("threshold", RVal.rRat e.CRITICAL_LOW_THRESHOLD),
       ("phase", RVal.rStr mission_phase),
       ("recommendation", RVal.rStr "abort_and_rest")]⟩
  else if current_mode = ControlMode.AUTONOMOUS ∧
      recommended_mode = ControlMode.HUMAN ∧
      bn_rec.autonomous_reliability < e.LOW_THRESHOLD then
    some ⟨ActionType.AUTO_SWITCH, ControlMode.HUMAN,
      "Autonomous performance degraded - Switching to Human",
      "Autonomous control reliability has dropped to " ++
        render bn_rec.autonomous_reliability ++ ". Reasons: " ++
        String.intercalate ", " (diagnose_autonomous_degradation bn_rec) ++
        ". Human control required for safety.",
      "high", false, none,
      [("auto_switch_to_human", RVal.rBool true),
       ("auto_reliability", RVal.rRat bn_rec.autonomous_reliability),
       ("threshold", RVal.rRat e.LOW_THRESHOLD),
       ("diagnosis", RVal.rStrList (diagnose_autonomous_degradation bn_rec))]⟩
  else none

/- ===== Phase handlers (authority_rules.py lines 369 to 746) ===== -/

/-- AuthorityRuleEngine._handle_critical_phase (Docking, DockingApproach). -/
def handle_critical_phase (e : AuthorityRuleEngine) (current_mode recommended_mode : ControlMode)
    (mission_phase : String) (bn_rec : ModeRecommendation) : AuthorityDecision :=
  if current_mode = ControlMode.AUTONOMOUS ∧ recommended_mode = ControlMode.HUMAN then
    ⟨ActionType.AUTO_SWITCH, ControlMode.HUMAN,
     "Critical Phase - Switching to Human Control",
     generate_explanation e "auto_to_human_critical" mission_phase bn_rec
       "Autonomous system detected conditions requiring human judgment",
     "critical", false, none,
     [("phase", RVal.rStr mission_phase),
      ("transition", RVal.rStr "auto_to_human"),
      ("auto_reliability", RVal.rRat bn_rec.autonomous_reliability),
      ("human_reliability", RVal.rRat bn_rec.human_reliability)]⟩
  else if current_mode = ControlMode.HUMAN ∧ recommended_mode = ControlMode.AUTONOMOUS then
    ⟨ActionType.BLOCK, current_mode,
     "Autonomous mode blocked during " ++ mission_phase,
     "Autonomous operation is not permitted during " ++ mission_phase ++
       ". This critical phase requires human judgment and decision-making. " ++
       "Shared control is available if you need assistance with positioning or stabilization.",
     "high", false, none,
     [("blocked", RVal.rBool true),
      ("reason", RVal.rStr "critical_phase_safety"),
      ("phase", RVal.rStr mission_phase)]⟩
  else if recommended_mode = ControlMode.SHARED then
    ⟨ActionType.ASK, ControlMode.SHARED,
     "Shared control recommended for " ++ mission_phase,
     generate_explanation e "suggest_shared_critical" mission_phase bn_rec
       "Shared control can assist during this critical phase",
     "medium", true, some 30,
     [("phase", RVal.rStr mission_phase),
      ("transition", RVal.rStr (current_mode.name ++ "_to_shared")),
      ("benefits", RVal.rStr "System can assist with stabilization while you focus on critical decisions")]⟩
  else
    ⟨ActionType.NONE, current_mode,
     "Maintaining " ++ current_mode.name ++ " mode",
     "Current mode is appropriate for " ++ mission_phase ++ ".",
     "low", false, none, []⟩

/-- AuthorityRuleEngine._handle_high_risk_phase (Undocking). -/
def handle_high_risk_phase (e : AuthorityRuleEngine) (current_mode recommended_mode : ControlMode)
    (mission_phase : String) (bn_rec : ModeRecommendation) : AuthorityDecision :=
  if current_mode = ControlMode.AUTONOMOUS ∧ recommended_mode = ControlMode.HUMAN then
    ⟨ActionType.AUTO_SWITCH, ControlMode.HUMAN,
     "High Risk Phase - Switching to Human Control",
     generate_explanation e "auto_to_human_high" mission_phase bn_rec
       "Autonomous reliability has decreased",
     "high", false, none,
     [("phase", RVal.rStr mission_phase),
      ("auto_reliability", RVal.rRat bn_rec.autonomous_reliability),
      ("human_reliability", RVal.rRat bn_rec.human_reliability)]⟩
  else if current_mode = ControlMode.HUMAN ∧ recommended_mode = ControlMode.AUTONOMOUS then
    let fatigued := bn_rec.human_reliability < e.LOW_THRESHOLD
    let urgency := if fatigued then "high" else "medium"
    let msg_pre := if fatigued then "Your fatigue is high." else ""
    ⟨ActionType.ASK, ControlMode.AUTONOMOUS,
     msg_pre ++ " Switch to Autonomous for " ++ mission_phase ++ "?",
     generate_explanation e "human_to_auto_high" mission_phase bn_rec
       (msg_pre ++ " Autonomous system can handle " ++ mission_phase),
     urgency, true, some 45,
     [("phase", RVal.rStr mission_phase),
      ("human_reliability", RVal.rRat bn_rec.human_reliability),
      ("auto_reliability", RVal.rRat bn_rec.autonomous_reliability),
      ("fatigue_warning", RVal.rBool (decide (bn_rec.human_reliability < e.LOW_THRESHOLD)))]⟩
  else if recommended_mode = ControlMode.SHARED then
    ⟨ActionType.SUGGEST, ControlMode.SHARED,
     "Shared control available for " ++ mission_phase,
     generate_explanation e "suggest_shared" mission_phase bn_rec
       "Shared control balances human oversight with system assistance",
     "medium", true, some 30,
     [("phase", RVal.rStr mission_phase)]⟩
  else
    ⟨ActionType.NONE, current_mode, "Mode stable", "", "low", false, none, []⟩

/-- AuthorityRuleEngine._handle_medium_risk_phase (Inspection). -/
def handle_medium_risk_phase (e : AuthorityRuleEngine) (current_mode recommended_mode : ControlMode)
    (mission_phase : String) (bn_rec : ModeRecommendation) : AuthorityDecision :=
  if current_mode = ControlMode.AUTONOMOUS ∧ recommended_mode = ControlMode.HUMAN then
    ⟨ActionType.ASK, ControlMode.HUMAN,
     "Autonomous performance degraded - Switch to manual?",
     generate_explanation e "auto_degraded_medium" mission_phase bn_rec
       "Autonomous performance has decreased but can continue" ++
       " Autonomous mode can continue if you prefer.",
     "medium", true, some 60,
     [("phase", RVal.rStr mission_phase),
      ("auto_reliability", RVal.rRat bn_rec.autonomous_reliability),
      ("can_continue_auto", RVal.rBool true)]⟩
  else if current_mode = ControlMode.HUMAN ∧ recommended_mode = ControlMode.AUTONOMOUS then
    ⟨ActionType.SUGGEST, ControlMode.AUTONOMOUS,
     "Autopilot available - Enable to conserve attention?",
     generate_explanation e "offer_auto_assist" mission_phase bn_rec
       "Autopilot can handle routine inspection tasks" ++
       " You can monitor without active control.",
     "low", true, none,
     [("phase", RVal.rStr mission_phase),
      ("benefit", RVal.rStr "reduce_operator_workload"),
      ("auto_reliability", RVal.rRat bn_rec.autonomous_reliability)]⟩
  else if recommended_mode = ControlMode.SHARED then
    ⟨ActionType.SUGGEST, ControlMode.SHARED,
     "Shared control recommended",
     generate_explanation e "suggest_shared" mission_phase bn_rec
       "Shared control optimizes human-system performance",
     "low", true, none,
     [("phase", RVal.rStr mission_phase)]⟩
  else
    ⟨ActionType.NONE, current_mode, "", "", "low", false, none, []⟩

/-- AuthorityRuleEngine._handle_low_risk_phase (Transit).  Note the final
branch targets recommended_mode, not current_mode, with action SUGGEST when
the two differ. -/
def handle_low_risk_phase (e : AuthorityRuleEngine) (current_mode recommended_mode : ControlMode)
    (mission_phase : String) (bn_rec : ModeRecommendation) : AuthorityDecision :=
  if current_mode = ControlMode.AUTONOMOUS ∧ recommended_mode = ControlMode.HUMAN then
    ⟨ActionType.NOTIFY, current_mode,
     "Autonomous performance note - Available to take control",
     generate_explanation e "auto_degraded_low" mission_phase bn_rec
       "Autonomous performance decreased" ++
       " No immediate action required during transit.",
     "low", false, none,
     [("phase", RVal.rStr mission_phase),
      ("auto_reliability", RVal.rRat bn_rec.autonomous_reliability),
      ("info_only", RVal.rBool true)]⟩
  else if current_mode = ControlMode.HUMAN ∧ recommended_mode = ControlMode.AUTONOMOUS then
    ⟨ActionType.SUGGEST, ControlMode.AUTONOMOUS,
     "Autopilot available for transit - Rest and monitor?",
     generate_explanation e "offer_auto_rest" mission_phase bn_rec
       "Autopilot can handle transit to conserve your attention" ++
       " This allows you to conserve attention for more demanding phases ahead.",
     "low", true, none,
     [("phase", RVal.rStr mission_phase),
      ("benefit", RVal.rStr "operator_rest"),
      ("human_reliability", RVal.rRat bn_rec.human_reliability)]⟩
  else
    ⟨(if recommended_mode ≠ current_mode then ActionType.SUGGEST else ActionType.NONE),
     recommended_mode,
     "Consider " ++ recommended_mode.name ++ " mode?",
     recommended_mode.name ++ " mode is available during low-risk " ++ mission_phase ++ ".",
     "low", true, none,
     [("phase", RVal.rStr mission_phase)]⟩

/-- AuthorityRuleEngine._handle_safe_phase (Charging). -/
def handle_safe_phase (current_mode recommended_mode : ControlMode)
    (mission_phase : String) : AuthorityDecision :=
  if recommended_mode = ControlMode.AUTONOMOUS ∧ current_mode ≠ ControlMode.AUTONOMOUS then
    ⟨ActionType.AUTO_SWITCH, ControlMode.AUTONOMOUS,
     "Switching to Autonomous mode during " ++ mission_phase,
     "ROV is safely docked and charging. Autonomous mode will monitor systems. " ++
       "You can take control at any time if needed.",
     "low", false, none,
     [("phase", RVal.rStr mission_phase),
      ("safe_phase_auto", RVal.rBool true)]⟩
  else
    ⟨ActionType.NONE, current_mode,
     "System monitoring during charging", "",
     "low", false, none,
     [("phase", RVal.rStr mission_phase)]⟩

/-- AuthorityRuleEngine._apply_phase_rules (lines 316 to 367): early return
when no change is needed, then dispatch on risk level. -/
def apply_phase_rules (e : AuthorityRuleEngine) (current_mode recommended_mode : ControlMode)
    (risk_level : PhaseRiskLevel) (mission_phase : String)
    (bn_rec : ModeRecommendation) : AuthorityDecision :=
  if current_mode = recommended_mode then
    ⟨ActionType.NONE, current_mode,
     "Mode stable: " ++ current_mode.name,
     "Current mode is optimal for " ++ mission_phase ++ " phase.",
     "low", false, none,
     [("no_change_needed", RVal.rBool true)]⟩
  else if risk_level = PhaseRiskLevel.CRITICAL then
    handle_critical_phase e current_mode recommended_mode mission_phase bn_rec
  else if risk_level = PhaseRiskLevel.HIGH then
    handle_high_risk_phase e current_mode recommended_mode mission_phase bn_rec
  else if risk_level = PhaseRiskLevel.MEDIUM then
    handle_medium_risk_phase e current_mode recommended_mode mission_phase bn_rec
  else if risk_level = PhaseRiskLevel.LOW then
    handle_low_risk_phase e current_mode recommended_mode mission_phase bn_rec
  else
    handle_safe_phase current_mode recommended_mode mission_phase

/- ===== The evaluate entry point (authority_rules.py lines 123 to 191) ===== -/

/-- AuthorityRuleEngine.evaluate_mode_change with the risk level supplied:
priority 1 operator override, priority 2 hard safety rules, priority 3
minimum mode duration (hysteresis), priority 4 phase-dependent rules.  The
two nested Python ifs at lines 171 to 172 are flattened into one
conjunction. -/
def evaluate_with_risk (e : AuthorityRuleEngine) (current_mode : ControlMode)
    (bn_recommendation : ModeRecommendation) (mission_phase : String)
    (time_since_last_change : ℚ) (operator_override : Option ControlMode)
    (risk_level : PhaseRiskLevel) : AuthorityDecision :=
  match operator_override with
  | some requested =>
      handle_operator_override requested current_mode risk_level mission_phase
  | none =>
    match apply_safety_rules e current_mode bn_recommendation.recommended_mode risk_level
        mission_phase bn_recommendation with
    | some safety_decision => safety_decision
    | none =>
      if time_since_last_change < e.minimum_mode_duration ∧
          bn_recommendation.recommended_mode ≠ current_mode then
        ⟨ActionType.NONE, current_mode,
         "Mode stable for " ++ toString (pyInt time_since_last_change) ++ "s",
         "Minimum mode duration not reached to prevent rapid switching",
         "low", false, none,
         [("hysteresis", RVal.rBool true),
          ("time_remaining", RVal.rRat (e.minimum_mode_duration - time_since_last_change))]⟩
      else
        apply_phase_rules e current_mode bn_recommendation.recommended_mode risk_level
          mission_phase bn_recommendation

/-- AuthorityRuleEngine.evaluate_mode_change. -/
def evaluate_mode_change (e : AuthorityRuleEngine) (current_mode : ControlMode)
    (bn_recommendation : ModeRecommendation) (mission_phase task_criticality : String)
    (time_since_last_change : ℚ) (operator_override : Option ControlMode) : AuthorityDecision :=
  evaluate_with_risk e current_mode bn_recommendation mission_phase
    time_since_last_change operator_override
    (get_risk_level mission_phase task_criticality)

/-- evaluate_mode_change with the Python enum constructor inside
get_risk_level modelled as fallible: the single place in the decision path
where CPython could raise on in-range inputs is PhaseRiskLevel(v). -/
def evaluate_mode_change_checked (e : AuthorityRuleEngine) (current_mode : ControlMode)
    (bn_recommendation : ModeRecommendation) (mission_phase task_criticality : String)
    (time_since_last_change : ℚ) (operator_override : Option ControlMode) :
    Option AuthorityDecision :=
  match get_risk_level_checked mission_phase task_criticality with
  | some risk_level =>
      some (evaluate_with_risk e current_mode bn_recommendation mission_phase
        time_since_last_change operator_override risk_level)
  | none => none

/-- evaluate_mode_change in explicit state-passing form.  The Python method
reads engine attributes but contains no assignment to self, so the engine
value is returned unchanged. -/
def evaluate_mode_change_st (e : AuthorityRuleEngine) (current_mode : ControlMode)
    (bn_recommendation : ModeRecommendation) (mission_phase task_criticality : String)
    (time_since_last_change : ℚ) (operator_override : Option ControlMode) :
    AuthorityDecision × AuthorityRuleEngine :=
  (evaluate_mode_change e current_mode bn_recommendation mission_phase
    task_criticality time_since_last_change operator_override, e)

/- ===== Transport layer (mode_arbitrator.py lines 178 to 229) ===== -/

/-- The mode_map.get(mode_str, ControlMode.SHARED) lookup in
ModeArbitratorNode.bn_recommendation_callback: unmapped recommendation
tokens default to SHARED. -/
def mode_map_get_rec (mode_str : String) : ControlMode :=
  if mode_str = "autonomous" then ControlMode.AUTONOMOUS
  else if mode_str = "human" then ControlMode.HUMAN
  else if mode_str = "shared" then ControlMode.SHARED
  else ControlMode.SHARED

/-- The recommendation stored by bn_recommendation_callback for a message
payload: the token is lowercased, then looked up with default SHARED. -/
def bn_recommendation_token (data : String) : ControlMode :=
  mode_map_get_rec (pyLower data)

/-- The mode_map.get(requested_mode_str) lookup in
ModeArbitratorNode.operator_override_callback: no default, so unmapped
tokens yield none. -/
def mode_map_get_opt (mode_str : String) : Option ControlMode :=
  if mode_str = "autonomous" then some ControlMode.AUTONOMOUS
  else if mode_str = "human" then some ControlMode.HUMAN
  else if mode_str = "shared" then some ControlMode.SHARED
  else none

/-- The override that operator_override_callback forwards for a message
payload: the token is lowercased and looked up without a default; the
callback body runs only under the truthiness test if requested_mode, so an
unmapped token is dropped and no override reaches the rule engine. -/
def operator_override_token (data : String) : Option ControlMode :=
  mode_map_get_opt (pyLower data)

/- ===== Spec-side definitions for the refinement statement of C6 ===== -/

/-- Base table of C6's formula, following the claim's words: Docking and
DockingApproach map to Critical, Undocking to High, Inspection to Medium,
Transit to Low, Charging to Safe, any unrecognized phase to Medium. -/
def spec_base (phase : String) : PhaseRiskLevel :=
  if phase = "Docking" then .CRITICAL
  else if phase = "DockingApproach" then .CRITICAL
  else if phase = "Undocking" then .HIGH
  else if phase = "Inspection" then .MEDIUM
  else if phase = "Transit" then .LOW
  else if phase = "Charging" then .SAFE
  else .MEDIUM

/-- Modifier table of C6's formula, following the claim's words: Routine 0,
Important +1, Critical +2, any unrecognized criticality 0. -/
def spec_modifier (criticality : String) : Nat :=
  if criticality = "Routine" then 0
  else if criticality = "Important" then 1
  else if criticality = "Critical" then 2
  else 0

/-- C6's formula: min(base(phase) + modifier(criticality), Critical), the
minimum taken on the integer values of the ordered risk enumeration. -/
def spec_risk_level (phase criticality : String) : PhaseRiskLevel :=
  PhaseRiskLevel.ofVal
    (min ((spec_base phase).val + spec_modifier criticality) PhaseRiskLevel.CRITICAL.val)

/- ===== Theorems ===== -/

/-- The mkRat thresholds of AuthorityRuleEngine.init are exactly the decimal
literals 0.5, 0.6 and 0.8 written in the source. -/
theorem init_thresholds :
    AuthorityRuleEngine.init.CRITICAL_LOW_THRESHOLD = 0.5 ∧
    AuthorityRuleEngine.init.LOW_THRESHOLD = 0.6 ∧
    AuthorityRuleEngine.init.HIGH_THRESHOLD = 0.8 := by
  refine ⟨?_, ?_, ?_⟩ <;>
    · simp only [AuthorityRuleEngine.init, Rat.mkRat_eq_div]
      norm_num

/-- The Python enum constructor succeeds on every value up to 4 and agrees
with its total version there. -/
theorem ofVal?_eq_of_le (n : Nat) (h : n ≤ 4) :
    PhaseRiskLevel.ofVal? n = some (PhaseRiskLevel.ofVal n) := by
  interval_cases n <;> rfl

/-- The clamped risk value computed by get_risk_level never exceeds 4. -/
theorem risk_value_le_four (phase task_criticality : String) :
    risk_value phase task_criticality ≤ 4 :=
  min_le_right _ _

/-- C6: for every phase string and criticality string, risk_level(phase,
criticality) equals min(base(phase) + modifier(criticality), Critical),
where base maps Docking and DockingApproach to Critical, Undocking to High,
Inspection to Medium, Transit to Low, Charging to Safe and any unrecognized
phase to Medium, and modifier maps Routine to 0, Important to +1, Critical
to +2 and any unrecognized criticality to 0. -/
theorem get_risk_level_matches_spec_formula (phase criticality : String) :
    get_risk_level phase criticality = spec_risk_level phase criticality := by
  unfold get_risk_level spec_risk_level risk_value PHASE_RISK_MAP_get spec_base
    CRITICALITY_MODIFIER_get spec_modifier
  split_ifs <;> rfl

/-- C1 counterexample: with phase Inspection and criticality Critical the
effective risk is Critical, so is_autonomous_allowed(phase, criticality) is
false, yet an operator override targeting Autonomous is not blocked: the
source consults is_autonomous_allowed(mission_phase) at the default Routine
criticality, so the override is accepted with AutoSwitch. -/
theorem override_gate_ignores_criticality_cex :
    is_autonomous_allowed "Inspection" "Critical" = false ∧
    (evaluate_mode_change AuthorityRuleEngine.init ControlMode.HUMAN
      (⟨ControlMode.AUTONOMOUS, mkRat 9 10, mkRat 9 10, mkRat 9 10, none⟩)
      "Inspection" "Critical" 200 (some ControlMode.AUTONOMOUS)).action_type =
      ActionType.AUTO_SWITCH ∧
    ¬ ((evaluate_mode_change AuthorityRuleEngine.init ControlMode.HUMAN
      (⟨ControlMode.AUTONOMOUS, mkRat 9 10, mkRat 9 10, mkRat 9 10, none⟩)
      "Inspection" "Critical" 200 (some ControlMode.AUTONOMOUS)).action_type =
      ActionType.BLOCK) := by
  refine ⟨rfl, rfl, ?_⟩
  decide

/-- C1 (amended): for every current_mode, phase and criticality such that
is_autonomous_allowed(phase, "Routine") is false — the source evaluates the
autonomy gate at the default Routine criticality, ignoring the passed
criticality — a call to evaluate_mode_change with an operator override
targeting Autonomous returns a decision with action_type Block, target_mode
current_mode, urgency high and allow_decline false, regardless of any
reliability values in the recommendation. -/
theorem override_autonomous_blocked (current_mode : ControlMode)
    (bn : ModeRecommendation) (phase criticality : String) (t : ℚ)
    (h : is_autonomous_allowed phase "Routine" = false) :
    (evaluate_mode_change AuthorityRuleEngine.init current_mode bn phase criticality t
      (some ControlMode.AUTONOMOUS)).action_type = ActionType.BLOCK ∧
    (evaluate_mode_change AuthorityRuleEngine.init current_mode bn phase criticality t
      (some ControlMode.AUTONOMOUS)).target_mode = current_mode ∧
    (evaluate_mode_change AuthorityRuleEngine.init current_mode bn phase criticality t
      (some ControlMode.AUTONOMOUS)).urgency = "high" ∧
    (evaluate_mode_change AuthorityRuleEngine.init current_mode bn phase criticality t
      (some ControlMode.AUTONOMOUS)).allow_decline = false := by
  simp only [evaluate_mode_change, evaluate_with_risk, handle_operator_override]
  split_ifs with hcond
  · exact ⟨rfl, rfl, rfl, rfl⟩
  all_goals simp [h] at hcond

/-- Witness for C1 (amended) at phase Docking. -/
theorem override_autonomous_blocked_witness :
    is_autonomous_allowed "Docking" "Routine" = false ∧
    ((evaluate_mode_change AuthorityRuleEngine.init ControlMode.HUMAN
      (⟨ControlMode.AUTONOMOUS, mkRat 9 10, mkRat 9 10, mkRat 9 10, none⟩)
      "Docking" "Routine" 50 (some ControlMode.AUTONOMOUS)).action_type = ActionType.BLOCK ∧
    (evaluate_mode_change AuthorityRuleEngine.init ControlMode.HUMAN
      (⟨ControlMode.AUTONOMOUS, mkRat 9 10, mkRat 9 10, mkRat 9 10, none⟩)
      "Docking" "Routine" 50 (some ControlMode.AUTONOMOUS)).target_mode = ControlMode.HUMAN ∧
    (evaluate_mode_change AuthorityRuleEngine.init ControlMode.HUMAN
      (⟨ControlMode.AUTONOMOUS, mkRat 9 10, mkRat 9 10, mkRat 9 10, none⟩)
      "Docking" "Routine" 50 (some ControlMode.AUTONOMOUS)).urgency = "high" ∧
    (evaluate_mode_change AuthorityRuleEngine.init ControlMode.HUMAN
      (⟨ControlMode.AUTONOMOUS, mkRat 9 10, mkRat 9 10, mkRat 9 10, none⟩)
      "Docking" "Routine" 50 (some ControlMode.AUTONOMOUS)).allow_decline = false) :=
  ⟨by decide,
   override_autonomous_blocked ControlMode.HUMAN
     (⟨ControlMode.AUTONOMOUS, mkRat 9 10, mkRat 9 10, mkRat 9 10, none⟩)
     "Docking" "Routine" 50 (by decide)⟩

/-- C2 counterexample: at Scenario 2's inputs (Transit, Routine, current
Autonomous, recommended Human, human_reliability 0.9, autonomous_reliability
0.55 = 11/20, elapsed 200) the result is not Notify with target Autonomous:
Hard Safety Rule 2 fires first because 0.55 < 0.6. -/
theorem scenario2_cex :
    (mkRat 11 20 : ℚ) = 0.55 ∧
    ¬ ((evaluate_mode_change AuthorityRuleEngine.init ControlMode.AUTONOMOUS
      (⟨ControlMode.HUMAN, mkRat 9 10, mkRat 9 10, mkRat 11 20, none⟩)
      "Transit" "Routine" 200 none).action_type = ActionType.NOTIFY ∧
    (evaluate_mode_change AuthorityRuleEngine.init ControlMode.AUTONOMOUS
      (⟨ControlMode.HUMAN, mkRat 9 10, mkRat 9 10, mkRat 11 20, none⟩)
      "Transit" "Routine" 200 none).target_mode = ControlMode.AUTONOMOUS) :=
  ⟨by rw [Rat.mkRat_eq_div]; norm_num, by decide⟩

/-- C2 (amended): with phase Transit, criticality Routine, no operator
override, current_mode Autonomous, recommended_mode Human,
human_reliability 0.9, autonomous_reliability 0.55 and elapsed_seconds 200,
evaluate_mode_change returns action_type AutoSwitch with target_mode Human
and urgency high: Hard Safety Rule 2 fires because the autonomous
reliability 0.55 is below the 0.6 threshold, so the current mode is not
maintained. -/
theorem scenario2_rule_b_fires :
    (evaluate_mode_change AuthorityRuleEngine.init ControlMode.AUTONOMOUS
      (⟨ControlMode.HUMAN, mkRat 9 10, mkRat 9 10, mkRat 11 20, none⟩)
      "Transit" "Routine" 200 none).action_type = ActionType.AUTO_SWITCH ∧
    (evaluate_mode_change AuthorityRuleEngine.init ControlMode.AUTONOMOUS
      (⟨ControlMode.HUMAN, mkRat 9 10, mkRat 9 10, mkRat 11 20, none⟩)
      "Transit" "Routine" 200 none).target_mode = ControlMode.HUMAN ∧
    (evaluate_mode_change AuthorityRuleEngine.init ControlMode.AUTONOMOUS
      (⟨ControlMode.HUMAN, mkRat 9 10, mkRat 9 10, mkRat 11 20, none⟩)
      "Transit" "Routine" 200 none).urgency = "high" := by
  refine ⟨rfl, rfl, rfl⟩

/-- C3 counterexample: at phase DockingApproach with human_reliability
0.3 = 3/10 (below the 0.5 critical-low threshold) the engine returns the
Safety Rule 1 Notify, not Block, so the universally quantified claim fails. -/
theorem scenario1_low_human_reliability_cex :
    (mkRat 3 10 : ℚ) = 0.3 ∧
    (evaluate_mode_change AuthorityRuleEngine.init ControlMode.HUMAN
      (⟨ControlMode.AUTONOMOUS, mkRat 7 10, mkRat 3 10, mkRat 9 10, none⟩)
      "DockingApproach" "Routine" 200 none).action_type = ActionType.NOTIFY ∧
    ¬ ((evaluate_mode_change AuthorityRuleEngine.init ControlMode.HUMAN
      (⟨ControlMode.AUTONOMOUS, mkRat 7 10, mkRat 3 10, mkRat 9 10, none⟩)
      "DockingApproach" "Routine" 200 none).action_type = ActionType.BLOCK ∧
    (evaluate_mode_change AuthorityRuleEngine.init ControlMode.HUMAN
      (⟨ControlMode.AUTONOMOUS, mkRat 7 10, mkRat 3 10, mkRat 9 10, none⟩)
      "DockingApproach" "Routine" 200 none).target_mode = ControlMode.HUMAN) :=
  ⟨by rw [Rat.mkRat_eq_div]; norm_num, rfl, by decide⟩

/-- C3 (amended): for every human_reliability, autonomous_reliability and
confidence value in [0,1] with human_reliability at least 0.5 (so that Hard
Safety Rule 1 does not preempt the phase rules with a Notify), a call to
evaluate_mode_change with phase DockingApproach, criticality Routine, no
operator override, current_mode Human, recommended_mode Autonomous and
elapsed_seconds 200 returns action_type Block with target_mode Human. -/
theorem scenario1_block (hr ar c : ℚ) (dr : Option ℚ)
    (h0 : 0 ≤ hr) (h1 : hr ≤ 1) (h2 : 0 ≤ ar) (h3 : ar ≤ 1)
    (h4 : 0 ≤ c) (h5 : c ≤ 1) (hge : (0.5 : ℚ) ≤ hr) :
    (evaluate_mode_change AuthorityRuleEngine.init ControlMode.HUMAN
      (⟨ControlMode.AUTONOMOUS, c, hr, ar, dr⟩)
      "DockingApproach" "Routine" 200 none).action_type = ActionType.BLOCK ∧
    (evaluate_mode_change AuthorityRuleEngine.init ControlMode.HUMAN
      (⟨ControlMode.AUTONOMOUS, c, hr, ar, dr⟩)
      "DockingApproach" "Routine" 200 none).target_mode = ControlMode.HUMAN := by
  have hth : AuthorityRuleEngine.init.CRITICAL_LOW_THRESHOLD ≤ hr := by
    calc AuthorityRuleEngine.init.CRITICAL_LOW_THRESHOLD = (0.5 : ℚ) := init_thresholds.1
    _ ≤ hr := hge
  have hnot : ¬ (hr < AuthorityRuleEngine.init.CRITICAL_LOW_THRESHOLD) := not_lt.mpr hth
  have hs : apply_safety_rules AuthorityRuleEngine.init ControlMode.HUMAN
      ControlMode.AUTONOMOUS (get_risk_level "DockingApproach" "Routine")
      "DockingApproach" (⟨ControlMode.AUTONOMOUS, c, hr, ar, dr⟩) = none := by
    unfold apply_safety_rules
    rw [if_neg (fun hh => hnot hh.2.2), if_neg (by simp)]
  simp only [evaluate_mode_change, evaluate_with_risk]
  rw [hs]
  exact ⟨rfl, rfl⟩

/-- Witness for C3 (amended) at human_reliability 0.9. -/
theorem scenario1_block_witness :
    ((0 : ℚ) ≤ mkRat 9 10 ∧ (mkRat 9 10 : ℚ) ≤ 1 ∧ (0.5 : ℚ) ≤ mkRat 9 10) ∧
    ((evaluate_mode_change AuthorityRuleEngine.init ControlMode.HUMAN
      (⟨ControlMode.AUTONOMOUS, mkRat 7 10, mkRat 9 10, mkRat 1 2, none⟩)
      "DockingApproach" "Routine" 200 none).action_type = ActionType.BLOCK ∧
    (evaluate_mode_change AuthorityRuleEngine.init ControlMode.HUMAN
      (⟨ControlMode.AUTONOMOUS, mkRat 7 10, mkRat 9 10, mkRat 1 2, none⟩)
      "DockingApproach" "Routine" 200 none).target_mode = ControlMode.HUMAN) :=
  ⟨⟨by norm_num [Rat.mkRat_eq_div], by norm_num [Rat.mkRat_eq_div],
    by norm_num [Rat.mkRat_eq_div]⟩,
   scenario1_block (mkRat 9 10) (mkRat 1 2) (mkRat 7 10) none
     (by norm_num [Rat.mkRat_eq_div]) (by norm_num [Rat.mkRat_eq_div])
     (by norm_num [Rat.mkRat_eq_div]) (by norm_num [Rat.mkRat_eq_div])
     (by norm_num [Rat.mkRat_eq_div]) (by norm_num [Rat.mkRat_eq_div])
     (by norm_num [Rat.mkRat_eq_div])⟩

/-- C4: for every elapsed_seconds (including values below 120), every phase
and every criticality, if there is no operator override, current_mode is
Autonomous, recommended_mode is Human and autonomous_reliability < 0.6,
then evaluate_mode_change returns action_type AutoSwitch with target_mode
Human and urgency high; the hysteresis window does not suppress this rule.
Hard Safety Rule A cannot apply here since it requires current_mode Human. -/
theorem rule_b_fires_through_hysteresis (bn : ModeRecommendation)
    (phase criticality : String) (t : ℚ)
    (hrec : bn.recommended_mode = ControlMode.HUMAN)
    (har : bn.autonomous_reliability < 0.6) :
    (evaluate_mode_change AuthorityRuleEngine.init ControlMode.AUTONOMOUS bn
      phase criticality t none).action_type = ActionType.AUTO_SWITCH ∧
    (evaluate_mode_change AuthorityRuleEngine.init ControlMode.AUTONOMOUS bn
      phase criticality t none).target_mode = ControlMode.HUMAN ∧
    (evaluate_mode_change AuthorityRuleEngine.init ControlMode.AUTONOMOUS bn
      phase criticality t none).urgency = "high" := by
  have har' : bn.autonomous_reliability < AuthorityRuleEngine.init.LOW_THRESHOLD := by
    rw [init_thresholds.2.1]; exact har
  simp only [evaluate_mode_change, evaluate_with_risk, apply_safety_rules]
  split_ifs with c1 c2 <;>
    first
      | exact ⟨rfl, rfl, rfl⟩
      | simp_all

/-- Witness for C4 inside the hysteresis window: elapsed 10 < 120 and
autonomous_reliability 0.5. -/
theorem rule_b_fires_through_hysteresis_witness :
    ((⟨ControlMode.HUMAN, mkRat 7 10, mkRat 9 10, mkRat 1 2, none⟩ :
        ModeRecommendation).recommended_mode = ControlMode.HUMAN ∧
     (⟨ControlMode.HUMAN, mkRat 7 10, mkRat 9 10, mkRat 1 2, none⟩ :
        ModeRecommendation).autonomous_reliability < 0.6) ∧
    ((evaluate_mode_change AuthorityRuleEngine.init ControlMode.AUTONOMOUS
      (⟨ControlMode.HUMAN, mkRat 7 10, mkRat 9 10, mkRat 1 2, none⟩)
      "Docking" "Routine" 10 none).action_type = ActionType.AUTO_SWITCH ∧
    (evaluate_mode_change AuthorityRuleEngine.init ControlMode.AUTONOMOUS
      (⟨ControlMode.HUMAN, mkRat 7 10, mkRat 9 10, mkRat 1 2, none⟩)
      "Docking" "Routine" 10 none).target_mode = ControlMode.HUMAN ∧
    (evaluate_mode_change AuthorityRuleEngine.init ControlMode.AUTONOMOUS
      (⟨ControlMode.HUMAN, mkRat 7 10, mkRat 9 10, mkRat 1 2, none⟩)
      "Docking" "Routine" 10 none).urgency = "high") :=
  ⟨⟨rfl, by norm_num [Rat.mkRat_eq_div]⟩,
   rule_b_fires_through_hysteresis
     (⟨ControlMode.HUMAN, mkRat 7 10, mkRat 9 10, mkRat 1 2, none⟩)
     "Docking" "Routine" 10 rfl (by norm_num [Rat.mkRat_eq_div])⟩

/-- C5: for every input with no operator override where neither hard safety
rule fires (apply_safety_rules returns none), if elapsed_seconds < 120 and
recommended_mode differs from current_mode, then evaluate_mode_change
returns action_type None with target_mode current_mode, and the reasons
mapping carries the hysteresis flag and the remaining cooldown seconds
120 - elapsed_seconds. -/
theorem hysteresis_maintains_current_mode (current_mode : ControlMode)
    (bn : ModeRecommendation) (phase criticality : String) (t : ℚ)
    (hsafe : apply_safety_rules AuthorityRuleEngine.init current_mode
      bn.recommended_mode (get_risk_level phase criticality) phase bn = none)
    (ht : t < 120) (hne : bn.recommended_mode ≠ current_mode) :
    (evaluate_mode_change AuthorityRuleEngine.init current_mode bn
      phase criticality t none).action_type = ActionType.NONE ∧
    (evaluate_mode_change AuthorityRuleEngine.init current_mode bn
      phase criticality t none).target_mode = current_mode ∧
    (evaluate_mode_change AuthorityRuleEngine.init current_mode bn
      phase criticality t none).reasons =
      [("hysteresis", RVal.rBool true), ("time_remaining", RVal.rRat (120 - t))] := by
  simp only [evaluate_mode_change, evaluate_with_risk]
  rw [hsafe]
  rw [if_pos ⟨ht, hne⟩]
  exact ⟨rfl, rfl, rfl⟩

/-- Witness for C5: Transit, elapsed 30, recommended Autonomous while in
Human mode, healthy reliabilities so neither safety rule fires. -/
theorem hysteresis_maintains_current_mode_witness :
    (apply_safety_rules AuthorityRuleEngine.init ControlMode.HUMAN
      (⟨ControlMode.AUTONOMOUS, mkRat 4 5, mkRat 9 10, mkRat 9 10, none⟩ :
        ModeRecommendation).recommended_mode
      (get_risk_level "Transit" "Routine") "Transit"
      (⟨ControlMode.AUTONOMOUS, mkRat 4 5, mkRat 9 10, mkRat 9 10, none⟩) = none ∧
     (30 : ℚ) < 120) ∧
    ((evaluate_mode_change AuthorityRuleEngine.init ControlMode.HUMAN
      (⟨ControlMode.AUTONOMOUS, mkRat 4 5, mkRat 9 10, mkRat 9 10, none⟩)
      "Transit" "Routine" 30 none).action_type = ActionType.NONE ∧
    (evaluate_mode_change AuthorityRuleEngine.init ControlMode.HUMAN
      (⟨ControlMode.AUTONOMOUS, mkRat 4 5, mkRat 9 10, mkRat 9 10, none⟩)
      "Transit" "Routine" 30 none).target_mode = ControlMode.HUMAN ∧
    (evaluate_mode_change AuthorityRuleEngine.init ControlMode.HUMAN
      (⟨ControlMode.AUTONOMOUS, mkRat 4 5, mkRat 9 10, mkRat 9 10, none⟩)
      "Transit" "Routine" 30 none).reasons =
      [("hysteresis", RVal.rBool true), ("time_remaining", RVal.rRat (120 - 30))]) :=
  ⟨⟨by decide, by decide⟩,
   hysteresis_maintains_current_mode ControlMode.HUMAN
     (⟨ControlMode.AUTONOMOUS, mkRat 4 5, mkRat 9 10, mkRat 9 10, none⟩)
     "Transit" "Routine" 30 (by decide) (by decide) (by decide)⟩

/-- C7: for every combination of current_mode, recommendation with
reliability and confidence values in [0,1], phase string, criticality
string, non-negative elapsed_seconds and optional operator override,
evaluate_mode_change terminates and returns an AuthorityDecision: the
fallible model of the decision path (the Python enum constructor inside
get_risk_level, the one statement that could raise on validated inputs)
returns some of the total function's result, whose every field is populated
by construction of the AuthorityDecision record. -/
theorem evaluate_mode_change_total (e : AuthorityRuleEngine) (current_mode : ControlMode)
    (bn : ModeRecommendation) (phase criticality : String) (t : ℚ)
    (ov : Option ControlMode)
    (h0 : 0 ≤ bn.human_reliability) (h1 : bn.human_reliability ≤ 1)
    (h2 : 0 ≤ bn.autonomous_reliability) (h3 : bn.autonomous_reliability ≤ 1)
    (h4 : 0 ≤ bn.confidence) (h5 : bn.confidence ≤ 1) (h6 : 0 ≤ t) :
    evaluate_mode_change_checked e current_mode bn phase criticality t ov =
      some (evaluate_mode_change e current_mode bn phase criticality t ov) := by
  unfold evaluate_mode_change_checked get_risk_level_checked
  rw [ofVal?_eq_of_le _ (risk_value_le_four phase criticality)]
  rfl

/-- Witness for C7 at a concrete call. -/
theorem evaluate_mode_change_total_witness :
    evaluate_mode_change_checked AuthorityRuleEngine.init ControlMode.SHARED
      (⟨ControlMode.HUMAN, mkRat 7 10, mkRat 17 20, mkRat 4 5, some (mkRat 3 5)⟩)
      "Undocking" "Important" 150 none =
    some (evaluate_mode_change AuthorityRuleEngine.init ControlMode.SHARED
      (⟨ControlMode.HUMAN, mkRat 7 10, mkRat 17 20, mkRat 4 5, some (mkRat 3 5)⟩)
      "Undocking" "Important" 150 none) :=
  evaluate_mode_change_total AuthorityRuleEngine.init ControlMode.SHARED
    (⟨ControlMode.HUMAN, mkRat 7 10, mkRat 17 20, mkRat 4 5, some (mkRat 3 5)⟩)
    "Undocking" "Important" 150 none
    (by decide) (by decide) (by decide) (by decide) (by decide) (by decide) (by decide)

/-- C8: evaluate_mode_change is deterministic and mutates no engine state:
two calls with identical arguments on engines with identical configuration
(the three reliability thresholds and the minimum mode duration), even with
different mutable bookkeeping fields, return structurally identical
AuthorityDecision values, and the state-passing form returns the engine
unchanged. -/
theorem evaluate_mode_change_deterministic_and_stateless
    (e₁ e₂ : AuthorityRuleEngine) (current_mode : ControlMode)
    (bn : ModeRecommendation) (phase criticality : String) (t : ℚ)
    (ov : Option ControlMode)
    (hd : e₁.minimum_mode_duration = e₂.minimum_mode_duration)
    (hc : e₁.CRITICAL_LOW_THRESHOLD = e₂.CRITICAL_LOW_THRESHOLD)
    (hl : e₁.LOW_THRESHOLD = e₂.LOW_THRESHOLD)
    (hh : e₁.HIGH_THRESHOLD = e₂.HIGH_THRESHOLD) :
    (evaluate_mode_change_st e₁ current_mode bn phase criticality t ov).1 =
      (evaluate_mode_change_st e₂ current_mode bn phase criticality t ov).1 ∧
    (evaluate_mode_change_st e₁ current_mode bn phase criticality t ov).2 = e₁ := by
  obtain ⟨d₁, c₁, l₁, g₁, hist₁, lt₁⟩ := e₁
  obtain ⟨d₂, c₂, l₂, g₂, hist₂, lt₂⟩ := e₂
  have hd' : d₁ = d₂ := hd
  have hc' : c₁ = c₂ := hc
  have hl' : l₁ = l₂ := hl
  have hh' : g₁ = g₂ := hh
  subst hd' hc' hl' hh'
  exact ⟨rfl, rfl⟩

/-- Witness for C8: two engines sharing the configuration but differing in
mutable bookkeeping fields. -/
theorem evaluate_mode_change_deterministic_and_stateless_witness :
    (evaluate_mode_change_st
        (⟨120, mkRat 1 2, mkRat 3 5, mkRat 4 5, ["earlier change"], some 7⟩)
        ControlMode.AUTONOMOUS
        (⟨ControlMode.SHARED, mkRat 7 10, mkRat 17 20, mkRat 4 5, none⟩)
        "Inspection" "Important" 300 none).1 =
      (evaluate_mode_change_st AuthorityRuleEngine.init ControlMode.AUTONOMOUS
        (⟨ControlMode.SHARED, mkRat 7 10, mkRat 17 20, mkRat 4 5, none⟩)
        "Inspection" "Important" 300 none).1 ∧
    (evaluate_mode_change_st
        (⟨120, mkRat 1 2, mkRat 3 5, mkRat 4 5, ["earlier change"], some 7⟩)
        ControlMode.AUTONOMOUS
        (⟨ControlMode.SHARED, mkRat 7 10, mkRat 17 20, mkRat 4 5, none⟩)
        "Inspection" "Important" 300 none).2 =
      (⟨120, mkRat 1 2, mkRat 3 5, mkRat 4 5, ["earlier change"], some 7⟩ :
        AuthorityRuleEngine) :=
  evaluate_mode_change_deterministic_and_stateless
    (⟨120, mkRat 1 2, mkRat 3 5, mkRat 4 5, ["earlier change"], some 7⟩)
    AuthorityRuleEngine.init ControlMode.AUTONOMOUS
    (⟨ControlMode.SHARED, mkRat 7 10, mkRat 17 20, mkRat 4 5, none⟩)
    "Inspection" "Important" 300 none rfl rfl rfl rfl

/-- C9 counterexample: the override token Emergency maps to no control mode,
so operator_override_callback forwards no override at all (the claim says it
would be defaulted to Shared); only the recommendation path defaults the
same token to Shared. -/
theorem unmapped_override_token_dropped_cex :
    operator_override_token "Emergency" = none ∧
    operator_override_token "Emergency" ≠ some ControlMode.SHARED ∧
    bn_recommendation_token "Emergency" = ControlMode.SHARED := by
  refine ⟨by decide, by decide, by decide⟩

/-- C9 (amended): in the transport layer, every recommendation token that
does not map to one of autonomous, human, shared (after lowercasing) is
defaulted to the Shared control mode before reaching the rule engine, while
every operator-override token that does not map is dropped: no override is
forwarded to the rule engine at all. -/
theorem unmapped_tokens_rec_shared_override_dropped (s : String)
    (h1 : pyLower s ≠ "autonomous") (h2 : pyLower s ≠ "human")
    (h3 : pyLower s ≠ "shared") :
    bn_recommendation_token s = ControlMode.SHARED ∧
    operator_override_token s = none := by
  unfold bn_recommendation_token operator_override_token mode_map_get_rec mode_map_get_opt
  rw [if_neg h1, if_neg h2, if_neg h3, if_neg h1, if_neg h2, if_neg h3]
  exact ⟨rfl, rfl⟩

/-- Witness for C9 (amended) at the token foo. -/
theorem unmapped_tokens_rec_shared_override_dropped_witness :
    (pyLower "foo" ≠ "autonomous" ∧ pyLower "foo" ≠ "human" ∧
      pyLower "foo" ≠ "shared") ∧
    (bn_recommendation_token "foo" = ControlMode.SHARED ∧
      operator_override_token "foo" = none) :=
  ⟨⟨by decide, by decide, by decide⟩,
   unmapped_tokens_rec_shared_override_dropped "foo"
     (by decide) (by decide) (by decide)⟩

/-- In _handle_operator_override, a decision whose action is None, Notify or
Block targets the current mode (its only such branch is the Block). -/
theorem override_no_transition_target (m current_mode : ControlMode)
    (risk : PhaseRiskLevel) (ph : String)
    (h : (handle_operator_override m current_mode risk ph).action_type = ActionType.NONE ∨
      (handle_operator_override m current_mode risk ph).action_type = ActionType.NOTIFY ∨
      (handle_operator_override m current_mode risk ph).action_type = ActionType.BLOCK) :
    (handle_operator_override m current_mode risk ph).target_mode = current_mode := by
  unfold handle_operator_override at h ⊢
  split_ifs at h ⊢ <;> simp_all

/-- In _apply_safety_rules, a produced decision whose action is None, Notify
or Block targets the current mode (rule 1 is a Notify at current_mode; rule
2 is an AutoSwitch). -/
theorem safety_no_transition_target (e : AuthorityRuleEngine)
    (current_mode recommended_mode : ControlMode) (risk : PhaseRiskLevel)
    (ph : String) (bn : ModeRecommendation) (d : AuthorityDecision)
    (hs : apply_safety_rules e current_mode recommended_mode risk ph bn = some d)
    (h : d.action_type = ActionType.NONE ∨ d.action_type = ActionType.NOTIFY ∨
      d.action_type = ActionType.BLOCK) :
    d.target_mode = current_mode := by
  unfold apply_safety_rules at hs
  split_ifs at hs
  · obtain rfl := Option.some.inj hs
    rfl
  · obtain rfl := Option.some.inj hs
    simp at h

/-- In _handle_critical_phase, a decision whose action is None, Notify or
Block targets the current mode. -/
theorem critical_no_transition_target (e : AuthorityRuleEngine)
    (current_mode recommended_mode : ControlMode) (ph : String)
    (bn : ModeRecommendation)
    (h : (handle_critical_phase e current_mode recommended_mode ph bn).action_type =
        ActionType.NONE ∨
      (handle_critical_phase e current_mode recommended_mode ph bn).action_type =
        ActionType.NOTIFY ∨
      (handle_critical_phase e current_mode recommended_mode ph bn).action_type =
        ActionType.BLOCK) :
    (handle_critical_phase e current_mode recommended_mode ph bn).target_mode =
      current_mode := by
  unfold handle_critical_phase at h ⊢
  split_ifs at h ⊢ <;> simp_all

/-- In _handle_high_risk_phase, a decision whose action is None, Notify or
Block targets the current mode. -/
theorem high_no_transition_target (e : AuthorityRuleEngine)
    (current_mode recommended_mode : ControlMode) (ph : String)
    (bn : ModeRecommendation)
    (h : (handle_high_risk_phase e current_mode recommended_mode ph bn).action_type =
        ActionType.NONE ∨
      (handle_high_risk_phase e current_mode recommended_mode ph bn).action_type =
        ActionType.NOTIFY ∨
      (handle_high_risk_phase e current_mode recommended_mode ph bn).action_type =
        ActionType.BLOCK) :
    (handle_high_risk_phase e current_mode recommended_mode ph bn).target_mode =
      current_mode := by
  unfold handle_high_risk_phase at h ⊢
  split_ifs at h ⊢ <;> simp_all

/-- In _handle_medium_risk_phase, a decision whose action is None, Notify or
Block targets the current mode. -/
theorem medium_no_transition_target (e : AuthorityRuleEngine)
    (current_mode recommended_mode : ControlMode) (ph : String)
    (bn : ModeRecommendation)
    (h : (handle_medium_risk_phase e current_mode recommended_mode ph bn).action_type =
        ActionType.NONE ∨
      (handle_medium_risk_phase e current_mode recommended_mode ph bn).action_type =
        ActionType.NOTIFY ∨
      (handle_medium_risk_phase e current_mode recommended_mode ph bn).action_type =
        ActionType.BLOCK) :
    (handle_medium_risk_phase e current_mode recommended_mode ph bn).target_mode =
      current_mode := by
  unfold handle_medium_risk_phase at h ⊢
  split_ifs at h ⊢ <;> simp_all

/-- In _handle_low_risk_phase, a decision whose action is None, Notify or
Block targets the current mode: the Notify branch targets current_mode, and
the final branch targets recommended_mode but its action is Suggest
whenever recommended_mode differs from current_mode. -/
theorem low_no_transition_target (e : AuthorityRuleEngine)
    (current_mode recommended_mode : ControlMode) (ph : String)
    (bn : ModeRecommendation)
    (h : (handle_low_risk_phase e current_mode recommended_mode ph bn).action_type =
        ActionType.NONE ∨
      (handle_low_risk_phase e current_mode recommended_mode ph bn).action_type =
        ActionType.NOTIFY ∨
      (handle_low_risk_phase e current_mode recommended_mode ph bn).action_type =
        ActionType.BLOCK) :
    (handle_low_risk_phase e current_mode recommended_mode ph bn).target_mode =
      current_mode := by
  unfold handle_low_risk_phase at h ⊢
  split_ifs at h ⊢ <;> simp_all

/-- In _handle_safe_phase, a decision whose action is None, Notify or Block
targets the current mode. -/
theorem safe_no_transition_target (current_mode recommended_mode : ControlMode)
    (ph : String)
    (h : (handle_safe_phase current_mode recommended_mode ph).action_type =
        ActionType.NONE ∨
      (handle_safe_phase current_mode recommended_mode ph).action_type =
        ActionType.NOTIFY ∨
      (handle_safe_phase current_mode recommended_mode ph).action_type =
        ActionType.BLOCK) :
    (handle_safe_phase current_mode recommended_mode ph).target_mode =
      current_mode := by
  unfold handle_safe_phase at h ⊢
  split_ifs at h ⊢ <;> simp_all

/-- In _apply_phase_rules, a decision whose action is None, Notify or Block
targets the current mode. -/
theorem phase_no_transition_target (e : AuthorityRuleEngine)
    (current_mode recommended_mode : ControlMode) (risk : PhaseRiskLevel)
    (ph : String) (bn : ModeRecommendation)
    (h : (apply_phase_rules e current_mode recommended_mode risk ph bn).action_type =
        ActionType.NONE ∨
      (apply_phase_rules e current_mode recommended_mode risk ph bn).action_type =
        ActionType.NOTIFY ∨
      (apply_phase_rules e current_mode recommended_mode risk ph bn).action_type =
        ActionType.BLOCK) :
    (apply_phase_rules e current_mode recommended_mode risk ph bn).target_mode =
      current_mode := by
  unfold apply_phase_rules at h ⊢
  split_ifs at h ⊢
  · rfl
  · exact critical_no_transition_target e current_mode recommended_mode ph bn h
  · exact high_no_transition_target e current_mode recommended_mode ph bn h
  · exact medium_no_transition_target e current_mode recommended_mode ph bn h
  · exact low_no_transition_target e current_mode recommended_mode ph bn h
  · exact safe_no_transition_target current_mode recommended_mode ph h

/-- C10: for every engine configuration and every input, operator overrides
included, if the AuthorityDecision returned by evaluate_mode_change has
action_type None, Notify or Block, then its target_mode equals the
current_mode passed in: no-transition actions never name a different target
mode. -/
theorem no_transition_keeps_current_mode (e : AuthorityRuleEngine)
    (current_mode : ControlMode) (bn : ModeRecommendation)
    (phase criticality : String) (t : ℚ) (ov : Option ControlMode)
    (h : (evaluate_mode_change e current_mode bn phase criticality t ov).action_type =
        ActionType.NONE ∨
      (evaluate_mode_change e current_mode bn phase criticality t ov).action_type =
        ActionType.NOTIFY ∨
      (evaluate_mode_change e current_mode bn phase criticality t ov).action_type =
        ActionType.BLOCK) :
    (evaluate_mode_change e current_mode bn phase criticality t ov).target_mode =
      current_mode := by
  cases ov with
  | some m =>
      simp only [evaluate_mode_change, evaluate_with_risk] at h ⊢
      exact override_no_transition_target m current_mode
        (get_risk_level phase criticality) phase h
  | none =>
      simp only [evaluate_mode_change, evaluate_with_risk] at h ⊢
      rcases hs : apply_safety_rules e current_mode bn.recommended_mode
          (get_risk_level phase criticality) phase bn with _ | d
      · rw [hs] at h
        split_ifs at h ⊢ with hcond
        · rfl
        · exact phase_no_transition_target e current_mode bn.recommended_mode
            (get_risk_level phase criticality) phase bn h
      · rw [hs] at h
        exact safety_no_transition_target e current_mode bn.recommended_mode
          (get_risk_level phase criticality) phase bn d hs h

/-- Witness for C10 at a hysteresis None decision. -/
theorem no_transition_keeps_current_mode_witness :
    (evaluate_mode_change AuthorityRuleEngine.init ControlMode.HUMAN
      (⟨ControlMode.AUTONOMOUS, mkRat 9 10, mkRat 9 10, mkRat 9 10, none⟩)
      "Transit" "Routine" 10 none).action_type = ActionType.NONE ∧
    (evaluate_mode_change AuthorityRuleEngine.init ControlMode.HUMAN
      (⟨ControlMode.AUTONOMOUS, mkRat 9 10, mkRat 9 10, mkRat 9 10, none⟩)
      "Transit" "Routine" 10 none).target_mode = ControlMode.HUMAN :=
  ⟨by decide,
   no_transition_keeps_current_mode AuthorityRuleEngine.init ControlMode.HUMAN
     (⟨ControlMode.AUTONOMOUS, mkRat 9 10, mkRat 9 10, mkRat 9 10, none⟩)
     "Transit" "Routine" 10 none (Or.inl (by decide))⟩
